import Mathlib

/-!
# Verification of the PNG model codec (`model_encoder.py`)

Shallow embedding of the two encode/decode strategies of the repository's
`ModelImageEncoder`. Bytes are modelled as `List Nat` (values `< 256` where it
matters); PNG carriers are modelled by their observable content: the list of
text-metadata entries for the chunk method, and the flattened row-major pixel
byte stream for the pixel method (the PNG container and the PIL/numpy round
trip of those observables are treated as faithful external libraries, as the
spec does).

The zlib compressor is an external library. It is modelled abstractly by a
`Compressor` structure; theorems that depend on it take its documented
contract (losslessness, byte-valued output, non-empty output) as hypotheses,
and a small concrete instance `zlibModel` is provided to instantiate
witnesses. The base64 transcoder, whose exact behaviour (including padding
errors) the code depends on, is modelled concretely: `b64encode` is standard
padded base64 and `a2b` mirrors CPython's non-strict `binascii.a2b_base64`
loop (invalid characters skipped, `=` terminating a quad of position 2 or 3,
`Incorrect padding` when input ends mid-quad).

Python's `math.ceil(x / y)`, `math.ceil(math.sqrt(n))` and
`math.ceil(n * 4 / 3)` use floating point; they are modelled by the exact
rational ceilings, which agree for all realistic sizes.
-/

/-- Errors of the modelled base64 decoder (`binascii.Error` in Python):
`invalidLength` is the "number of data characters cannot be 1 more than a
multiple of 4" error, `incorrectPadding` the "Incorrect padding" error. -/
inductive B64Err where
  | invalidLength
  | incorrectPadding
deriving DecidableEq

/-- Errors raised by `decode_from_pixels` (all `ValueError` in the source,
distinguished here by their message):
`invalidFormat` = "Invalid encoded image format" (no colon found),
`invalidHeader` = "Invalid header format",
`valueError` = `int()` failing on a header field,
`malformedText` = base64 decode failure,
`corruptData` = zlib decompression failure,
`sizeMismatch` = "Size mismatch: expected ..., got ...". -/
inductive PxErr where
  | invalidFormat
  | invalidHeader
  | valueError
  | malformedText
  | corruptData
  | sizeMismatch
deriving DecidableEq

/-- Errors raised by `decode_from_chunk`:
`missingChunk` = "No model data found in chunk ...",
`malformedText` = base64 decode failure,
`corruptData` = zlib decompression failure,
`valueError` = `int()` failing on an informational metadata value
(raised after the output file has been written). -/
inductive ChunkErr where
  | missingChunk
  | malformedText
  | corruptData
  | valueError
deriving DecidableEq

/-- The standard base64 alphabet: index `0..63` to ASCII code. -/
def b64chr (i : Nat) : Nat :=
  if i < 26 then 65 + i
  else if i < 52 then 97 + (i - 26)
  else if i < 62 then 48 + (i - 52)
  else if i = 62 then 43
  else 47

/-- Inverse alphabet lookup: ASCII code to six-bit value, `none` for
characters outside the base64 alphabet (they are skipped by the
non-strict decoder, like CPython's `table_a2b_base64`). -/
def decodeVal (c : Nat) : Option Nat :=
  if 65 ≤ c ∧ c ≤ 90 then some (c - 65)
  else if 97 ≤ c ∧ c ≤ 122 then some (c - 97 + 26)
  else if 48 ≤ c ∧ c ≤ 57 then some (c - 48 + 52)
  else if c = 43 then some 62
  else if c = 47 then some 63
  else none

/-- `base64.b64encode`: standard padded base64 of a byte sequence. -/
def b64encode : List Nat → List Nat
  | a :: b :: c :: rest =>
      b64chr (a / 4) :: b64chr ((a % 4) * 16 + b / 16) ::
        b64chr ((b % 16) * 4 + c / 64) :: b64chr (c % 64) :: b64encode rest
  | [a, b] => [b64chr (a / 4), b64chr ((a % 4) * 16 + b / 16), b64chr ((b % 16) * 4), 61]
  | [a] => [b64chr (a / 4), b64chr ((a % 4) * 16), 61, 61]
  | [] => []

/-- CPython's non-strict `binascii.a2b_base64` loop, the engine of
`base64.b64decode`. Arguments after the input: the position in the current
quad (0..3), the pending bits (`leftchar`), and the count of adjacent pad
characters seen at quad position ≥ 2. Decoded bytes are emitted as the
second, third and fourth character of each quad arrive; a pad sequence that
completes a quad of 2 or 3 data characters ends decoding; input ending
mid-quad is an error, which discards all output. -/
def a2b : List Nat → Nat → Nat → Nat → Except B64Err (List Nat)
  | [], quadPos, _, _ =>
      if quadPos = 0 then .ok []
      else if quadPos = 1 then .error .invalidLength
      else .error .incorrectPadding
  | c :: rest, quadPos, leftchar, pads =>
      if c = 61 then
        if 2 ≤ quadPos ∧ 4 ≤ quadPos + pads + 1 then .ok []
        else a2b rest quadPos leftchar (if 2 ≤ quadPos then pads + 1 else pads)
      else
        match decodeVal c with
        | none => a2b rest quadPos leftchar pads
        | some v =>
          if quadPos = 0 then a2b rest 1 v 0
          else if quadPos = 1 then
            Except.map (fun r => (leftchar * 4 + v / 16) :: r) (a2b rest 2 (v % 16) 0)
          else if quadPos = 2 then
            Except.map (fun r => (leftchar * 16 + v / 4) :: r) (a2b rest 3 (v % 4) 0)
          else
            Except.map (fun r => (leftchar * 64 + v) :: r) (a2b rest 0 0 0)

/-- `base64.b64decode` (default non-strict mode). -/
def b64decode (l : List Nat) : Except B64Err (List Nat) :=
  a2b l 0 0 0

/-- Interface of the external zlib compressor (spec §4.1: a leaf primitive,
not part of the repository's code). -/
structure Compressor where
  compress : List Nat → List Nat
  decompress : List Nat → Except Unit (List Nat)

/-- zlib's documented contract: decompression inverts compression. -/
def Compressor.Lossless (C : Compressor) : Prop :=
  ∀ bs, C.decompress (C.compress bs) = .ok bs

/-- Compressed output of a byte sequence is again a byte sequence. -/
def Compressor.ByteValued (C : Compressor) : Prop :=
  ∀ bs, (∀ x ∈ bs, x < 256) → ∀ x ∈ C.compress bs, x < 256

/-- A tiny concrete instance of the `Compressor` interface used to
instantiate witnesses: a two-byte marker (the `0x78 0xDA` zlib level-9
header) followed by the raw bytes. Real zlib shares the properties the
theorems hypothesise: lossless, byte-valued, non-empty output on empty
input (`zlib.compress(b"", 9)` is 8 bytes long). -/
def zlibModel : Compressor where
  compress := fun bs => 120 :: 218 :: bs
  decompress := fun bs =>
    match bs with
    | a :: b :: rest => if a = 120 ∧ b = 218 then .ok rest else .error ()
    | _ => .error ()

/-- Fueled decimal rendering, the recursion behind `decimal`. -/
def decimalAux : Nat → Nat → List Nat
  | 0, _ => []
  | fuel + 1, n =>
      if n < 10 then [48 + n] else decimalAux fuel (n / 10) ++ [48 + n % 10]

/-- Python `str(n)` for a natural number: ASCII decimal digits. -/
def decimal (n : Nat) : List Nat :=
  decimalAux (n + 1) n

/-- Python `int(text)` on an ASCII byte/character sequence, restricted to the
forms the codec produces or is tested with: a non-empty digit string parses
to its value, anything containing a non-digit fails (in Python: raises
`ValueError`), modelled as `none`. -/
def pyInt (l : List Nat) : Option Nat :=
  if l.isEmpty then none
  else if l.all (fun c => 48 ≤ c && c ≤ 57) then
    some (l.foldl (fun acc c => acc * 10 + (c - 48)) 0)
  else none

/-- Lookup of a PNG text-metadata entry by key (PIL's `img.text[k]`,
first matching entry). -/
def metaLookup : List (String × List Nat) → String → Option (List Nat)
  | [], _ => none
  | (k, v) :: rest, key => if k = key then some v else metaLookup rest key

/-- `encode_to_chunk` (lines 31-58): the metadata entries attached to the
1x1 carrier. Note the three informational keys are the hardcoded literals
`mOdL_name`, `mOdL_size`, `mOdL_compressed_size` regardless of the
`chunk_name` parameter, exactly as in the source. -/
def encode_to_chunk (C : Compressor) (chunk_name : String) (name data : List Nat) :
    List (String × List Nat) :=
  [(chunk_name, b64encode (C.compress data)),
   ("mOdL_name", name),
   ("mOdL_size", decimal data.length),
   ("mOdL_compressed_size", decimal (C.compress data).length)]

/-- The compression-ratio report of `encode_to_chunk` (line 63) divides
`len(model_data)` by `len(compressed_data)`: a `ZeroDivisionError` occurs
exactly when the compressed data is empty (after the PNG has been saved). -/
def encodeRatioError (C : Compressor) (data : List Nat) : Option Unit :=
  if (C.compress data).length = 0 then some () else none

/-- The error, if any, produced by surfacing one optional informational
metadata entry in `decode_from_chunk` (lines 85-90): absent is fine,
present and parsing as an integer is fine, present and non-numeric raises
`ValueError` from `int()`. -/
def metaIntErr (carrier : List (String × List Nat)) (k : String) : Option ChunkErr :=
  match metaLookup carrier k with
  | some v => match pyInt v with
    | none => some .valueError
    | some _ => none
  | none => none

/-- `decode_from_chunk` (lines 66-92), modelled as the pair
(bytes persisted to the output file, error raised). The source writes the
output file (lines 81-82) and only then surfaces the informational
metadata (lines 85-90), so an `int()` failure there happens after the
output has been persisted. -/
def decode_from_chunk (C : Compressor) (chunk_name : String)
    (carrier : List (String × List Nat)) : Option (List Nat) × Option ChunkErr :=
  match metaLookup carrier chunk_name with
  | none => (none, some .missingChunk)
  | some text =>
    match b64decode text with
    | .error _ => (none, some .malformedText)
    | .ok compressed =>
      match C.decompress compressed with
      | .error _ => (none, some .corruptData)
      | .ok modelData =>
        (some modelData,
          match metaIntErr carrier "mOdL_size" with
          | some e => some e
          | none => metaIntErr carrier "mOdL_compressed_size")

/-- ASCII bytes of the literal header tag `MODEL`. -/
def asciiMODEL : List Nat := [77, 79, 68, 69, 76]

/-- The pixel-method header (line 107):
`"MODEL:" + name + ":" + str(len(model_data)) + ":" + str(len(compressed_data)) + ":"`. -/
def pixel_header (C : Compressor) (name data : List Nat) : List Nat :=
  asciiMODEL ++ [58] ++ name ++ [58] ++ decimal data.length ++ [58] ++
    decimal (C.compress data).length ++ [58]

/-- `full_data` of `encode_to_pixels` (line 111): header followed by the
base64 text of the compressed payload. -/
def pixel_full_data (C : Compressor) (name data : List Nat) : List Nat :=
  pixel_header C name data ++ b64encode (C.compress data)

/-- Python `math.ceil(a / b)` on naturals. -/
def pyCeilDiv (a b : Nat) : Nat :=
  (a + b - 1) / b

/-- Python `math.ceil(math.sqrt(n))` on naturals. -/
def ceilSqrt (n : Nat) : Nat :=
  if Nat.sqrt n * Nat.sqrt n = n then Nat.sqrt n else Nat.sqrt n + 1

/-- Python `math.ceil(n * 4 / 3)`. -/
def ceil43 (n : Nat) : Nat :=
  (4 * n + 2) / 3

/-- Grid width for a frame of `L` bytes (lines 115-118):
`ceil(sqrt(ceil(L / 3)))`. -/
def gridW (L : Nat) : Nat :=
  ceilSqrt (pyCeilDiv L 3)

/-- Grid height for a frame of `L` bytes (line 119): `ceil(ceil(L/3) / W)`. -/
def gridH (L : Nat) : Nat :=
  pyCeilDiv (pyCeilDiv L 3) (gridW L)

/-- `encode_to_pixels` (lines 95-134), modelled by its observable output:
the flattened row-major pixel byte stream of the saved RGB image, that is,
`full_data` padded with zero bytes to `W*H*3` (lines 122-127). -/
def encode_to_pixels (C : Compressor) (name data : List Nat) : List Nat :=
  pixel_full_data C name data ++
    List.replicate
      (gridW (pixel_full_data C name data).length *
        gridH (pixel_full_data C name data).length * 3 -
        (pixel_full_data C name data).length) 0

/-- `bytes.find(b":")`: index of the first colon, `none` for Python's `-1`. -/
def findColon : List Nat → Option Nat
  | [] => none
  | x :: rest => if x = 58 then some 0 else (findColon rest).map (· + 1)

/-- `bytes.find(b":", start)` with Python's `-1`-on-failure convention. -/
def pyFindFrom (l : List Nat) (start : Nat) : Int :=
  match findColon (l.drop start) with
  | some i => ((start + i : Nat) : Int)
  | none => -1

/-- Python `bytes.split(b":")`. -/
def splitOnColon : List Nat → List (List Nat)
  | [] => [[]]
  | x :: rest =>
    match splitOnColon rest with
    | [] => [[]]
    | h :: t => if x = 58 then [] :: h :: t else (x :: h) :: t

/-- Python `bytes.rstrip(b"\x00")` (line 174). -/
def rstripZeros (l : List Nat) : List Nat :=
  (l.reverse.dropWhile (fun x => x == 0)).reverse

/-- `decode_from_pixels` (lines 142-191) on the flattened pixel byte stream.
Mirrors the source line by line: find the first colon (line 152, else
"Invalid encoded image format"); split the prefix up to and including that
first colon on colons (line 157) and require at least 4 fields whose first
is `MODEL` (line 158, else "Invalid header format"); parse the size fields
with `int()` (lines 162-163); re-scan for the second, third and fourth
colons (lines 166-168); slice `ceil(compressed_size * 4/3)` bytes (line
171), strip trailing zero bytes (line 174), base64-decode, decompress, and
check the decompressed length against the header (lines 177-182). The
output file is written only after all of this, so `.ok` means the full
output is persisted. (The `name.decode("utf-8")` of line 161 is used only
for the success report and is kept as raw bytes here.) -/
def decode_from_pixels (C : Compressor) (flat : List Nat) : Except PxErr (List Nat) :=
  match findColon flat with
  | none => .error .invalidFormat
  | some headerEnd =>
    let headerParts := splitOnColon (flat.take (headerEnd + 1))
    if headerParts.length < 4 ∨ headerParts.getD 0 [] ≠ asciiMODEL then
      .error .invalidHeader
    else
      match pyInt (headerParts.getD 2 []), pyInt (headerParts.getD 3 []) with
      | some originalSize, some compressedSize =>
        let f2 : Int := pyFindFrom flat (headerEnd + 1)
        let f3 : Int := pyFindFrom flat (f2 + 1).toNat
        let f4 : Int := pyFindFrom flat (f3 + 1).toNat + 1
        let b64data := rstripZeros ((flat.drop f4.toNat).take (ceil43 compressedSize))
        match b64decode b64data with
        | .error _ => .error .malformedText
        | .ok compressed =>
          match C.decompress compressed with
          | .error _ => .error .corruptData
          | .ok modelData =>
            if modelData.length ≠ originalSize then .error .sizeMismatch
            else .ok modelData
      | _, _ => .error .valueError

/-- `decode_from_pixels` as (bytes persisted, error raised): the source
raises all its errors before the output file write of lines 185-186, and
everything after the write (lines 188-191) is infallible printing of
already-computed values. -/
def decode_from_pixels_proc (C : Compressor) (flat : List Nat) :
    Option (List Nat) × Option PxErr :=
  match decode_from_pixels C flat with
  | .ok d => (some d, none)
  | .error e => (none, some e)

/-- Whether an informational size entry, if present in a carrier's metadata,
parses as an integer (so that surfacing it in `decode_from_chunk` cannot
raise `ValueError` after the output file has been written). -/
def sizeMetaParses (carrier : List (String × List Nat)) (k : String) : Bool :=
  match metaLookup carrier k with
  | some v => (pyInt v).isSome
  | none => true

/-! ## Properties of the model compressor instance -/

theorem zlibModel_lossless : zlibModel.Lossless := by
  intro bs
  simp [zlibModel, Compressor.Lossless]

theorem zlibModel_byteValued : zlibModel.ByteValued := by
  intro bs h x hx
  simp [zlibModel] at hx
  rcases hx with h1 | h1 | h1
  · omega
  · omega
  · exact h x h1

theorem zlibModel_compress_empty_ne : zlibModel.compress [] ≠ [] := by
  simp [zlibModel]

/-! ## Properties of the base64 transcoder -/

theorem b64chr_ne_pad : ∀ i, i < 64 → b64chr i ≠ 61 := by decide

theorem decodeVal_b64chr : ∀ i, i < 64 → decodeVal (b64chr i) = some i := by decide

/-- Decoding one full quad of alphabet characters emits three bytes and
continues in the initial state. -/
theorem a2b_quad (rest : List Nat) (i1 i2 i3 i4 : Nat)
    (h1 : i1 < 64) (h2 : i2 < 64) (h3 : i3 < 64) (h4 : i4 < 64) :
    a2b (b64chr i1 :: b64chr i2 :: b64chr i3 :: b64chr i4 :: rest) 0 0 0 =
      Except.map
        (fun r => (i1 * 4 + i2 / 16) :: ((i2 % 16) * 16 + i3 / 4) ::
          ((i3 % 4) * 64 + i4) :: r)
        (a2b rest 0 0 0) := by
  cases hA : a2b rest 0 0 0 <;>
    simp [a2b, b64chr_ne_pad i1 h1, b64chr_ne_pad i2 h2, b64chr_ne_pad i3 h3,
      b64chr_ne_pad i4 h4, decodeVal_b64chr i1 h1, decodeVal_b64chr i2 h2,
      decodeVal_b64chr i3 h3, decodeVal_b64chr i4 h4, hA, Except.map]

/-- Core round-trip: decoding the base64 encoding of any byte sequence from
the initial decoder state recovers the bytes. -/
theorem b64_roundtrip_core : ∀ bs : List Nat, (∀ x ∈ bs, x < 256) →
    a2b (b64encode bs) 0 0 0 = .ok bs
  | [], _ => by simp [b64encode, a2b]
  | [a], h => by
      have ha : a < 256 := h a (by simp)
      have h1 : a / 4 < 64 := by omega
      have h2 : (a % 4) * 16 < 64 := by omega
      simp [b64encode, a2b, b64chr_ne_pad _ h1, b64chr_ne_pad _ h2,
        decodeVal_b64chr _ h1, decodeVal_b64chr _ h2, Except.map]
      omega
  | [a, b], h => by
      have ha : a < 256 := h a (by simp)
      have hb : b < 256 := h b (by simp)
      have h1 : a / 4 < 64 := by omega
      have h2 : (a % 4) * 16 + b / 16 < 64 := by omega
      have h3 : (b % 16) * 4 < 64 := by omega
      simp [b64encode, a2b, b64chr_ne_pad _ h1, b64chr_ne_pad _ h2,
        b64chr_ne_pad _ h3, decodeVal_b64chr _ h1, decodeVal_b64chr _ h2,
        decodeVal_b64chr _ h3, Except.map]
      omega
  | a :: b :: c :: rest, h => by
      have ha : a < 256 := h a (by simp)
      have hb : b < 256 := h b (by simp)
      have hc : c < 256 := h c (by simp)
      have IH := b64_roundtrip_core rest (fun x hx => h x (by simp [hx]))
      have h1 : a / 4 < 64 := by omega
      have h2 : (a % 4) * 16 + b / 16 < 64 := by omega
      have h3 : (b % 16) * 4 + c / 64 < 64 := by omega
      have h4 : c % 64 < 64 := by omega
      rw [show b64encode (a :: b :: c :: rest) =
        b64chr (a / 4) :: b64chr ((a % 4) * 16 + b / 16) ::
          b64chr ((b % 16) * 4 + c / 64) :: b64chr (c % 64) :: b64encode rest
        from rfl]
      rw [a2b_quad _ _ _ _ _ h1 h2 h3 h4, IH]
      simp [Except.map]
      omega

/-- `base64.b64decode` inverts `base64.b64encode` on byte sequences. -/
theorem b64_roundtrip (bs : List Nat) (h : ∀ x ∈ bs, x < 256) :
    b64decode (b64encode bs) = .ok bs :=
  b64_roundtrip_core bs h

/-- The padded base64 encoding of `n` bytes has `4 * ceil(n / 3)`
characters. -/
theorem b64encode_length : ∀ bs : List Nat,
    (b64encode bs).length = 4 * ((bs.length + 2) / 3)
  | [] => by simp [b64encode]
  | [a] => by simp [b64encode]
  | [a, b] => by simp [b64encode]
  | a :: b :: c :: rest => by
      simp [b64encode, b64encode_length rest]
      omega

/-! ## Properties of decimal rendering and parsing -/

theorem decimalAux_digits : ∀ fuel n d, d ∈ decimalAux fuel n → 48 ≤ d ∧ d ≤ 57 := by
  intro fuel
  induction fuel with
  | zero => simp [decimalAux]
  | succ f ih =>
    intro n d hd
    by_cases h : n < 10
    · simp [decimalAux, h] at hd
      omega
    · simp [decimalAux, h] at hd
      rcases hd with h1 | h1
      · exact ih _ _ h1
      · omega

theorem decimalAux_ne_nil (fuel n : Nat) (h : fuel ≠ 0) : decimalAux fuel n ≠ [] := by
  cases fuel with
  | zero => exact absurd rfl h
  | succ f =>
    by_cases h10 : n < 10 <;> simp [decimalAux, h10]

theorem decimalAux_foldl : ∀ fuel n a, n < 10 ^ fuel →
    (decimalAux fuel n).foldl (fun acc c => acc * 10 + (c - 48)) a =
      a * 10 ^ (decimalAux fuel n).length + n := by
  intro fuel
  induction fuel with
  | zero =>
    intro n a h
    simp [decimalAux]
    omega
  | succ f ih =>
    intro n a h
    by_cases h10 : n < 10
    · simp [decimalAux, h10]
    · have hdiv : n / 10 < 10 ^ f := by
        rw [Nat.div_lt_iff_lt_mul (by norm_num)]
        calc n < 10 ^ (f + 1) := h
          _ = 10 ^ f * 10 := by ring
      simp only [decimalAux, if_neg h10, List.foldl_append, List.length_append,
        List.length_cons, List.length_nil]
      rw [ih _ a hdiv]
      have hmod : n % 10 < 10 := Nat.mod_lt _ (by norm_num)
      simp [List.foldl_cons]
      ring_nf
      omega

/-- Python `int(str(n)) == n`. -/
theorem pyInt_decimal (n : Nat) : pyInt (decimal n) = some n := by
  have hfuel : n < 10 ^ (n + 1) := by
    calc n < 10 ^ n := Nat.lt_pow_self (by norm_num) n
      _ ≤ 10 ^ (n + 1) := Nat.pow_le_pow_right (by norm_num) (by omega)
  have hne : decimal n ≠ [] := decimalAux_ne_nil _ _ (by omega)
  have hdig : (decimal n).all (fun c => 48 ≤ c && c ≤ 57) = true := by
    rw [List.all_eq_true]
    intro d hd
    have := decimalAux_digits _ _ _ hd
    simp
    omega
  unfold pyInt
  rw [if_neg (by simpa [List.isEmpty_iff] using hne), if_pos hdig]
  have := decimalAux_foldl (n + 1) n 0 hfuel
  unfold decimal
  rw [this]
  simp

/-! ## Grid-sizing arithmetic -/

theorem le_mul_pyCeilDiv (n W : Nat) (hW : 0 < W) : n ≤ W * pyCeilDiv n W := by
  rcases Nat.eq_zero_or_pos n with h0 | h1
  · simp [h0]
  · unfold pyCeilDiv
    have hrw : n + W - 1 = (n - 1) + W := by omega
    rw [hrw, Nat.add_div_right _ hW, Nat.mul_add, Nat.mul_one]
    have hdm := Nat.div_add_mod (n - 1) W
    have hlt : (n - 1) % W < W := Nat.mod_lt _ hW
    set q := W * ((n - 1) / W) with hq
    omega

theorem ceilSqrt_pos (n : Nat) (h : 1 ≤ n) : 1 ≤ ceilSqrt n := by
  have hs : 1 ≤ Nat.sqrt n := Nat.le_sqrt.mpr (by omega)
  unfold ceilSqrt
  split <;> omega

theorem pyCeilDiv_pos (n W : Nat) (hn : 1 ≤ n) (hW : 0 < W) : 1 ≤ pyCeilDiv n W := by
  unfold pyCeilDiv
  rw [Nat.one_le_div_iff hW]
  omega

/-- Frames always begin with the 5-byte `MODEL` tag, so they are non-empty. -/
theorem pixel_full_data_length_pos (C : Compressor) (name data : List Nat) :
    1 ≤ (pixel_full_data C name data).length := by
  simp [pixel_full_data, pixel_header, asciiMODEL]

theorem grid_capacity (L : Nat) (hL : 1 ≤ L) : L ≤ gridW L * gridH L * 3 := by
  have hnp : 1 ≤ pyCeilDiv L 3 := pyCeilDiv_pos _ _ hL (by norm_num)
  have hW : 1 ≤ gridW L := ceilSqrt_pos _ hnp
  have h1 : pyCeilDiv L 3 ≤ gridW L * gridH L :=
    le_mul_pyCeilDiv (pyCeilDiv L 3) (gridW L) hW
  have h2 : L ≤ 3 * pyCeilDiv L 3 := by
    unfold pyCeilDiv
    omega
  calc L ≤ 3 * pyCeilDiv L 3 := h2
    _ ≤ 3 * (gridW L * gridH L) := Nat.mul_le_mul_left 3 h1
    _ = gridW L * gridH L * 3 := by ring

/-! ## The header-parse guard of `decode_from_pixels`

Line 157 of the source splits `flat_data[:header_end + 1]` — the prefix up
to and *including the first colon* — on colons. When the stream begins with
the tag `MODEL:`, that prefix is exactly `b"MODEL:"`, the split yields the
two fields `[b"MODEL", b""]`, and the `len(header_parts) < 4` check of line
158 therefore always fails. -/

theorem decode_guard (C : Compressor) (tail : List Nat) :
    decode_from_pixels C (77 :: 79 :: 68 :: 69 :: 76 :: 58 :: tail) =
      .error .invalidHeader := by
  have hfind : findColon (77 :: 79 :: 68 :: 69 :: 76 :: 58 :: tail) = some 5 := by
    simp [findColon]
  unfold decode_from_pixels
  rw [hfind]
  simp [splitOnColon]

/-- Normal form of an encoded pixel stream: the `MODEL:` tag followed by the
rest of the frame. -/
theorem encode_to_pixels_cons (C : Compressor) (name data : List Nat) :
    encode_to_pixels C name data =
      77 :: 79 :: 68 :: 69 :: 76 :: 58 ::
        ((name ++ [58] ++ decimal data.length ++ [58] ++
          decimal (C.compress data).length ++ [58] ++ b64encode (C.compress data)) ++
          List.replicate
            (gridW (pixel_full_data C name data).length *
              gridH (pixel_full_data C name data).length * 3 -
              (pixel_full_data C name data).length) 0) := by
  simp [encode_to_pixels, pixel_full_data, pixel_header, asciiMODEL]

/-- Some literal-key inequalities used when walking the metadata list. -/
theorem metaIntErr_none_of_parses (carrier : List (String × List Nat)) (k : String)
    (h : sizeMetaParses carrier k = true) : metaIntErr carrier k = none := by
  unfold sizeMetaParses at h
  unfold metaIntErr
  cases hm : metaLookup carrier k with
  | none => rfl
  | some v =>
    rw [hm] at h
    simp only [] at h
    cases hp : pyInt v with
    | none => rw [hp] at h; simp at h
    | some m => simp [hp]

/-- Shared engine of the chunk-method round trip: encoding any byte
sequence (empty or not) with the default key and decoding it back
persists exactly the original bytes and raises no error. -/
theorem chunk_roundtrip_aux (C : Compressor) (name data : List Nat)
    (hL : C.Lossless) (hB : C.ByteValued) (hbytes : ∀ x ∈ data, x < 256) :
    decode_from_chunk C "mOdL" (encode_to_chunk C "mOdL" name data) =
      (some data, none) := by
  have hc : ∀ x ∈ C.compress data, x < 256 := hB data hbytes
  have hb64 := b64_roundtrip _ hc
  have k1 : ("mOdL" : String) ≠ "mOdL_size" := by decide
  have k2 : ("mOdL_name" : String) ≠ "mOdL_size" := by decide
  have k3 : ("mOdL" : String) ≠ "mOdL_compressed_size" := by decide
  have k4 : ("mOdL_name" : String) ≠ "mOdL_compressed_size" := by decide
  have k5 : ("mOdL_size" : String) ≠ "mOdL_compressed_size" := by decide
  unfold decode_from_chunk encode_to_chunk metaIntErr
  simp [metaLookup, hb64, hL data, pyInt_decimal, k1, k2, k3, k4, k5]

/-! ## Claim theorems -/

/-- C1 (refuted; code bug): the claimed pixel-method round trip never
succeeds. For every compressor, name and payload, decoding the pixel
carrier produced by `encode_to_pixels` fails with the "Invalid header
format" error, because line 157 of the source splits only the prefix up to
the first colon into header fields, yielding 2 fields where line 158
requires at least 4. -/
theorem c1_pixel_roundtrip_always_fails (C : Compressor) (name data : List Nat) :
    decode_from_pixels C (encode_to_pixels C name data) = .error .invalidHeader := by
  rw [encode_to_pixels_cons]
  exact decode_guard C _

/-- C2 (refuted; code bug): the header-location check does not pass on
well-formed headers. Every flattened stream that begins with a well-formed
four-field `MODEL:<name>:<original_size>:<compressed_size>:` header is
rejected with the "Invalid header format" error instead of having its
three fields parsed. -/
theorem c2_wellformed_header_rejected (C : Compressor) (name rest : List Nat)
    (osz csz : Nat) :
    decode_from_pixels C
      (asciiMODEL ++ [58] ++ name ++ [58] ++ decimal osz ++ [58] ++
        decimal csz ++ [58] ++ rest) = .error .invalidHeader := by
  simp only [asciiMODEL, List.cons_append, List.nil_append, List.append_assoc]
  exact decode_guard C _

/-- C3 (counterexample): for a compressed payload of 1 byte,
`ceil(1 * 4/3) = 2` while its padded base64 encoding has 4 characters, so
the extracted bytes do not contain the entire transcoded text. -/
theorem c3_counterexample :
    ¬ ceil43 ([(0 : Nat)]).length = (b64encode [0]).length := by decide

/-- C3 (amended): the padded base64 encoding of an `n`-byte payload has
`4 * ceil(n / 3)` characters, and `ceil(n * 4/3)` equals that padded
length minus the number of `=` padding characters — that is, exactly the
non-padding data characters. The two lengths agree only when `n` is a
multiple of 3. -/
theorem c3_extraction_length (bs : List Nat) :
    (b64encode bs).length = 4 * ((bs.length + 2) / 3) ∧
    ceil43 bs.length = (b64encode bs).length - (3 - bs.length % 3) % 3 := by
  refine ⟨b64encode_length bs, ?_⟩
  rw [b64encode_length bs]
  unfold ceil43
  omega

/-- C9 (counterexample): tampering the `compressed_size` field of a valid
pixel carrier (payload `b"\x05"`, name `m`, compressed size 3 raised to 7)
makes `decode_from_pixels` fail with the "Invalid header format" error —
not with the size-mismatch or malformed-text errors the claim names. -/
theorem c9_counterexample :
    decode_from_pixels zlibModel
      [77, 79, 68, 69, 76, 58, 109, 58, 49, 58, 55, 58, 101, 78, 111, 70, 0, 0] =
      .error .invalidHeader ∧
    PxErr.invalidHeader ≠ PxErr.sizeMismatch ∧
    PxErr.invalidHeader ≠ PxErr.malformedText := by
  refine ⟨by rfl, by decide, by decide⟩

/-- C9 (amended): `decode_from_pixels` fails with the "Invalid header
format" error on every stream carrying the `MODEL:` tag — in particular on
every tampered pixel carrier, whatever value the `compressed_size` field
was flipped to — and therefore never silently returns wrong bytes. -/
theorem c9_tampered_carrier_rejected (C : Compressor) (tail : List Nat) :
    decode_from_pixels C (asciiMODEL ++ 58 :: tail) = .error .invalidHeader := by
  simp only [asciiMODEL, List.cons_append, List.nil_append]
  exact decode_guard C tail

/-- C4 (confirmed): for every lossless byte-valued compressor, every name
and every non-empty byte sequence, encoding with `encode_to_chunk` and
decoding the carrier with `decode_from_chunk` (both with the default
`mOdL` key) persists exactly the original bytes and raises no error. -/
theorem c4_chunk_roundtrip (C : Compressor) (name data : List Nat)
    (hL : C.Lossless) (hB : C.ByteValued) (hbytes : ∀ x ∈ data, x < 256)
    (_hne : data ≠ []) :
    decode_from_chunk C "mOdL" (encode_to_chunk C "mOdL" name data) =
      (some data, none) :=
  chunk_roundtrip_aux C name data hL hB hbytes

theorem c4_chunk_roundtrip_witness :
    decode_from_chunk zlibModel "mOdL" (encode_to_chunk zlibModel "mOdL" [119] [5]) =
      (some [5], none) :=
  c4_chunk_roundtrip zlibModel [119] [5] zlibModel_lossless zlibModel_byteValued
    (by decide) (by decide)

/-- C5 (confirmed): the flattened pixel bytes written by `encode_to_pixels`
are exactly the ASCII header `MODEL:<name>:<original_size>:<compressed_size>:`
followed by the base64 text of the compressed payload, followed by zero
bytes padding the stream to exactly `W*H*3` bytes. -/
theorem c5_pixel_frame_layout (C : Compressor) (name data : List Nat) :
    encode_to_pixels C name data =
      pixel_header C name data ++ b64encode (C.compress data) ++
        List.replicate
          (gridW (pixel_full_data C name data).length *
            gridH (pixel_full_data C name data).length * 3 -
            (pixel_full_data C name data).length) 0 ∧
    (encode_to_pixels C name data).length =
      gridW (pixel_full_data C name data).length *
        gridH (pixel_full_data C name data).length * 3 := by
  constructor
  · simp [encode_to_pixels, pixel_full_data, List.append_assoc]
  · have hcap := grid_capacity _ (pixel_full_data_length_pos C name data)
    simp only [encode_to_pixels, List.length_append, List.length_replicate]
    omega

/-- C6 (confirmed): for a frame of `L` bytes the encoder computes
`W = ceil(sqrt(ceil(L/3)))` and `H = ceil(ceil(L/3)/W)`, the capacity
satisfies `W*H*3 >= L`, and — the frame always containing the non-empty
header, even for an empty payload — both dimensions are at least 1. -/
theorem c6_grid_sizing (C : Compressor) (name data : List Nat) :
    gridW (pixel_full_data C name data).length =
      ceilSqrt (pyCeilDiv (pixel_full_data C name data).length 3) ∧
    gridH (pixel_full_data C name data).length =
      pyCeilDiv (pyCeilDiv (pixel_full_data C name data).length 3)
        (gridW (pixel_full_data C name data).length) ∧
    (pixel_full_data C name data).length ≤
      gridW (pixel_full_data C name data).length *
        gridH (pixel_full_data C name data).length * 3 ∧
    1 ≤ gridW (pixel_full_data C name data).length ∧
    1 ≤ gridH (pixel_full_data C name data).length := by
  have hL := pixel_full_data_length_pos C name data
  have hnp : 1 ≤ pyCeilDiv (pixel_full_data C name data).length 3 :=
    pyCeilDiv_pos _ _ hL (by norm_num)
  have hW : 1 ≤ gridW (pixel_full_data C name data).length := ceilSqrt_pos _ hnp
  exact ⟨rfl, rfl, grid_capacity _ hL, hW, pyCeilDiv_pos _ _ hnp hW⟩

/-- C7 (counterexample): a chunk carrier whose `mOdL` entry is valid but
whose optional `mOdL_size` entry is the non-numeric text `"x"` makes
`decode_from_chunk` both persist the decoded payload and raise an error —
the `int()` `ValueError` of line 88 occurs after the output file write of
lines 81-82, so the operation is not atomic. -/
theorem c7_counterexample :
    (decode_from_chunk zlibModel "mOdL"
      [("mOdL", b64encode (zlibModel.compress [5])), ("mOdL_size", [120])]).1 =
      some [5] ∧
    (decode_from_chunk zlibModel "mOdL"
      [("mOdL", b64encode (zlibModel.compress [5])), ("mOdL_size", [120])]).2 =
      some ChunkErr.valueError := by
  constructor <;> rfl

/-- C7 (amended): decode operations are atomic — any error occurs before
the output is written — except that `decode_from_chunk` raises `ValueError`
after writing the output when a present `mOdL_size` or
`mOdL_compressed_size` metadata value is non-numeric. Whenever those
optional entries, if present, parse as integers, a chunk decode either
persists nothing or raises nothing, and a pixel decode always either
persists nothing or raises nothing. -/
theorem c7_decode_atomicity (C : Compressor) (key : String)
    (carrier : List (String × List Nat)) (flat : List Nat)
    (h1 : sizeMetaParses carrier "mOdL_size" = true)
    (h2 : sizeMetaParses carrier "mOdL_compressed_size" = true) :
    ((decode_from_chunk C key carrier).1 = none ∨
      (decode_from_chunk C key carrier).2 = none) ∧
    ((decode_from_pixels_proc C flat).1 = none ∨
      (decode_from_pixels_proc C flat).2 = none) := by
  constructor
  · unfold decode_from_chunk
    cases hm : metaLookup carrier key with
    | none => simp
    | some text =>
      cases hb : b64decode text with
      | error e => simp [hb]
      | ok compressed =>
        cases hd : C.decompress compressed with
        | error e => simp [hb, hd]
        | ok modelData =>
          right
          simp [hb, hd, metaIntErr_none_of_parses carrier _ h1,
            metaIntErr_none_of_parses carrier _ h2]
  · unfold decode_from_pixels_proc
    cases decode_from_pixels C flat <;> simp

theorem c7_decode_atomicity_witness :
    sizeMetaParses [] "mOdL_size" = true ∧
    sizeMetaParses [] "mOdL_compressed_size" = true ∧
    (((decode_from_chunk zlibModel "mOdL" []).1 = none ∨
        (decode_from_chunk zlibModel "mOdL" []).2 = none) ∧
      ((decode_from_pixels_proc zlibModel []).1 = none ∨
        (decode_from_pixels_proc zlibModel []).2 = none)) :=
  ⟨rfl, rfl, c7_decode_atomicity zlibModel "mOdL" [] [] rfl rfl⟩

/-- C8 (counterexample): encoding with `chunk_key = "test"` produces the
metadata keys `test`, `mOdL_name`, `mOdL_size`, `mOdL_compressed_size` —
the three informational keys are hardcoded literals (lines 50-52), not
derived from the `chunk_key` parameter as the claim states. -/
theorem c8_counterexample :
    (encode_to_chunk zlibModel "test" [119] [5]).map Prod.fst =
      ["test", "mOdL_name", "mOdL_size", "mOdL_compressed_size"] ∧
    (encode_to_chunk zlibModel "test" [119] [5]).map Prod.fst ≠
      ["test", "test_name", "test_size", "test_compressed_size"] := by
  constructor
  · rfl
  · decide

/-- C8 (amended): for every `chunk_key`, the carrier's metadata keys are
`chunk_key` (holding the transcoded compressed data) together with the
fixed literals `mOdL_name`, `mOdL_size` and `mOdL_compressed_size`; the
claimed key set is produced only when `chunk_key = "mOdL"`. -/
theorem c8_metadata_keys (C : Compressor) (chunk_key : String) (name data : List Nat) :
    (encode_to_chunk C chunk_key name data).map Prod.fst =
      [chunk_key, "mOdL_name", "mOdL_size", "mOdL_compressed_size"] := by
  simp [encode_to_chunk]

/-- C10 (confirmed): with the compressor's documented behaviour on empty
input (non-empty output, as for `zlib.compress(b"", 9)`), encoding the
empty payload with `encode_to_chunk` raises no `ZeroDivisionError` in the
compression-ratio report, and decoding the carrier recovers the empty byte
sequence with no error — the chunk round trip also holds for `b = b""`. -/
theorem c10_empty_payload_chunk (C : Compressor) (name : List Nat)
    (hL : C.Lossless) (hB : C.ByteValued) (hNE : C.compress [] ≠ []) :
    encodeRatioError C [] = none ∧
    decode_from_chunk C "mOdL" (encode_to_chunk C "mOdL" name []) =
      (some [], none) := by
  constructor
  · unfold encodeRatioError
    rw [if_neg]
    simpa using hNE
  · exact chunk_roundtrip_aux C name [] hL hB (by simp)

theorem c10_empty_payload_chunk_witness :
    encodeRatioError zlibModel [] = none ∧
    decode_from_chunk zlibModel "mOdL" (encode_to_chunk zlibModel "mOdL" [119] []) =
      (some [], none) :=
  c10_empty_payload_chunk zlibModel [119] zlibModel_lossless zlibModel_byteValued
    zlibModel_compress_empty_ne
